import Mathlib

/-!
Formal verification of the client-side inventory reconciliation logic of the
royal-collection repository (src/App.tsx, src/types.ts).

The source file src/App.tsx contains two complete variants of the application:
variant A (lines 1-834, storage keys `ai-inventory-*`) and variant B
(lines 835-1988, storage keys `royal_collection_*`).  Both are embedded here.

Modelling conventions:
- JavaScript numbers are modelled as `Int` (all claims concern integer stock
  arithmetic and structural logic, never float rounding).
- Optional string fields (`sp.name`, `sp.description`) are modelled as `String`
  with `""` standing for an absent value; this is faithful because the source
  only ever consumes them through JS truthiness (`x || y`), under which the
  empty string and `undefined` behave identically.
- `localStorage` is modelled as a `Store` record with one `Option String` slot
  per key used by the code.
- `JSON.parse` of the durable catalog value is modelled at catalog granularity
  by a caller-supplied `parse : String -> JsParse` (throw / non-array value /
  array of products), since the boot code only distinguishes those outcomes.
- `JSON.parse` of an uploaded backup file is modelled by an `Option JVal`
  (dynamically typed JSON value), since the import path inspects arbitrary
  fields of the parsed value.
- `crypto.randomUUID()` and the random SKU generator are modelled as explicit
  fresh-name parameters.
-/

/-- JS `String.prototype.toLowerCase` (ASCII case folding). -/
def toLowerJs (s : String) : String :=
  String.mk (s.data.map Char.toLower)

/-- Helper for `strInfixJs`: does `t` occur at the start of `s`? -/
def strPrefixJs : List Char → List Char → Bool
  | [], _ => true
  | _ :: _, [] => false
  | a :: as, b :: bs => a == b && strPrefixJs as bs

/-- Helper for `includesJs`: does `t` occur somewhere inside `s`? -/
def strInfixJs (t : List Char) : List Char → Bool
  | [] => strPrefixJs t []
  | c :: cs => strPrefixJs t (c :: cs) || strInfixJs t cs

/-- JS `String.prototype.includes`: `includesJs s t` is `s.includes(t)`. -/
def includesJs (s t : String) : Bool :=
  strInfixJs t.data s.data

/-- JS `a || b` on strings: the empty string is falsy. -/
def strOr (a b : String) : String :=
  if a = "" then b else a

/-- JS `a || b` where `a` is an optional string (absent or empty falls back). -/
def optStrOr (o : Option String) (d : String) : String :=
  strOr (o.getD "") d

/-- JS `a || b` where `a` is an optional number (absent or zero falls back). -/
def optIntOr (o : Option Int) (d : Int) : Int :=
  match o with
  | some n => if n = 0 then d else n
  | none => d

/-- JS truthiness of an optional string field (`undefined` and `""` are falsy). -/
def truthyOptStr : Option String → Bool
  | some s => s != ""
  | none => false

/-- `SubProduct` from src/types.ts (variant B re-declares the same shape). -/
structure SubProduct where
  id : String
  sku : String
  name : String
  description : String
  color : String
  price : Int
  quantity : Int
  weight : String
  dimensions : String
  image : String
  remarks : String
deriving DecidableEq

/-- `Product` from src/types.ts (variant B re-declares the same shape). -/
structure Product where
  id : String
  name : String
  category : String
  description : String
  basePrice : Int
  image : String
  remarks : String
  alertLimit : Int
  subProducts : List SubProduct
deriving DecidableEq

/-- `Alert` from src/types.ts. -/
structure Alert where
  id : String
  productName : String
  sku : String
  currentQuantity : Int
  limit : Int
  timestamp : Int
deriving DecidableEq

/-- `ActionType` from src/types.ts. -/
inductive ActionType where
  | CREATE_PRODUCT
  | ADD_SUB_PRODUCT
  | UPDATE_STOCK
  | UNKNOWN
deriving DecidableEq

/-- The fields the reconcilers read out of the free-form `action.data` payload
(`data.name`, `data.category`, ..., `data.price`, `data.quantity`).  `none`
models an absent field; the source checks presence either by JS truthiness or
by `typeof x === 'number'`, both captured on this typed shape. -/
structure ActionData where
  name : Option String := none
  category : Option String := none
  description : Option String := none
  basePrice : Option Int := none
  remarks : Option String := none
  alertLimit : Option Int := none
  price : Option Int := none
  quantity : Option Int := none
  sku : Option String := none
  color : Option String := none
  weight : Option String := none
  dimensions : Option String := none
deriving DecidableEq

/-- `InventoryAction` from src/types.ts, with the payload in typed form. -/
structure InventoryAction where
  type : ActionType
  productName : Option String := none
  sku : Option String := none
  color : Option String := none
  data : Option ActionData := none
  quantityChange : Option Int := none
  reason : Option String := none
deriving DecidableEq

/-- The localStorage slots used by the code: `primary` is the catalog key
(`ai-inventory-data` in variant A, `royal_collection_storage_v1` in variant B),
`backup` is variant A's `ai-inventory-data-backup`, and `safety` is variant A's
`ai-inventory-safety-backup`.  Variant B never touches `backup` or `safety`. -/
structure Store where
  primary : Option String
  backup : Option String
  safety : Option String
deriving DecidableEq

/-- The placeholder image URL assigned to products created by the reconcilers. -/
def placeholderImage : String :=
  "https://images.unsplash.com/photo-1556228453-efd6c1ff04f6?auto=format&fit=crop&q=80&w=400"

/-- One alert entry as pushed by the alert recomputation effect (identical in
variants A and B): composite id, variant name falling back to the parent name,
and the recomputation timestamp. -/
def mkAlert (p : Product) (sp : SubProduct) (now : Int) : Alert :=
  { id := p.id ++ "-" ++ sp.id
    productName := strOr sp.name p.name
    sku := sp.sku
    currentQuantity := sp.quantity
    limit := p.alertLimit
    timestamp := now }

/-- The alert recomputation effect shared verbatim by variants A and B
(src/App.tsx lines 167-182 and 1439-1456): iterate every product, every
sub-product, and push an alert whenever `quantity <= alertLimit`. -/
def deriveAlerts (ps : List Product) (now : Int) : List Alert :=
  ps.foldl
    (fun acc p =>
      p.subProducts.foldl
        (fun acc2 sp =>
          if sp.quantity ≤ p.alertLimit then acc2 ++ [mkAlert p sp now] else acc2)
        acc)
    []

/-- Specification-side form of the alert derivation: catalog order, then
sub-product order, keeping exactly the low-stock sub-products. -/
def alertsSpec (ps : List Product) (now : Int) : List Alert :=
  ps.flatMap fun p =>
    (p.subProducts.filter fun sp => decide (sp.quantity ≤ p.alertLimit)).map
      fun sp => mkAlert p sp now

/-- Character-level escaping performed by `JSON.stringify` on string values
(quote and backslash; control characters do not occur in the claims). -/
def jsonEscape (s : String) : String :=
  String.mk (s.data.flatMap fun c => if c = '"' ∨ c = '\\' then ['\\', c] else [c])

/-- A JSON string literal. -/
def jsonStr (s : String) : String :=
  "\"" ++ jsonEscape s ++ "\""

/-- `JSON.stringify` of one SubProduct record (fields in declaration order). -/
def stringifySub (sp : SubProduct) : String :=
  "\x7b" ++ String.intercalate ","
    [ "\"id\":" ++ jsonStr sp.id
    , "\"sku\":" ++ jsonStr sp.sku
    , "\"name\":" ++ jsonStr sp.name
    , "\"description\":" ++ jsonStr sp.description
    , "\"color\":" ++ jsonStr sp.color
    , "\"price\":" ++ toString sp.price
    , "\"quantity\":" ++ toString sp.quantity
    , "\"weight\":" ++ jsonStr sp.weight
    , "\"dimensions\":" ++ jsonStr sp.dimensions
    , "\"image\":" ++ jsonStr sp.image
    , "\"remarks\":" ++ jsonStr sp.remarks ] ++ "\x7d"

/-- `JSON.stringify` of one Product record (fields in declaration order). -/
def stringifyProduct (p : Product) : String :=
  "\x7b" ++ String.intercalate ","
    [ "\"id\":" ++ jsonStr p.id
    , "\"name\":" ++ jsonStr p.name
    , "\"category\":" ++ jsonStr p.category
    , "\"description\":" ++ jsonStr p.description
    , "\"basePrice\":" ++ toString p.basePrice
    , "\"image\":" ++ jsonStr p.image
    , "\"remarks\":" ++ jsonStr p.remarks
    , "\"alertLimit\":" ++ toString p.alertLimit
    , "\"subProducts\":[" ++ String.intercalate "," (p.subProducts.map stringifySub) ++ "]" ]
  ++ "\x7d"

/-- `JSON.stringify(products)`: the serialized form written to durable storage. -/
def stringifyProducts (ps : List Product) : String :=
  "[" ++ String.intercalate "," (ps.map stringifyProduct) ++ "]"

/-- The write-guard test of variant A's save effect (src/App.tsx line 149):
the existing durable value at the primary key is non-trivial when its length
exceeds 50. -/
def existingNonTrivial (st : Store) : Bool :=
  match st.primary with
  | some d => decide (50 < d.length)
  | none => false

/-- Variant A's save effect (src/App.tsx lines 138-165), restricted to its
effect on durable storage.  On the first render it returns without writing;
if the catalog is empty, was not deliberately cleared, and the existing
durable value is non-trivial, the write is skipped; otherwise the serialized
catalog is written to both the primary and the backup key.  (The same effect
also recomputes alerts, modelled separately by `deriveAlerts`; note that the
guarded-skip `return` also skips that recomputation.) -/
def saveEffectA (isFirstRender : Bool) (products : List Product)
    (isManuallyCleared : Bool) (st : Store) : Store :=
  if isFirstRender then st
  else if products.length == 0 && !isManuallyCleared && existingNonTrivial st then st
  else
    { st with primary := some (stringifyProducts products)
              backup := some (stringifyProducts products) }

/-- Variant B's save effect (src/App.tsx lines 1432-1436): write the primary
key only, and only when loading has finished and the catalog is non-empty. -/
def saveEffectB (isLoading : Bool) (products : List Product) (st : Store) : Store :=
  if !isLoading && decide (0 < products.length) then
    { st with primary := some (stringifyProducts products) }
  else st

/-- Outcome of `JSON.parse` on a durable catalog value, at the granularity the
boot code distinguishes: an exception, a non-array JSON value, or an array of
products. -/
inductive JsParse where
  | err
  | nonArray
  | arr (ps : List Product)
deriving DecidableEq

/-- The catalog state produced by a load path.  `illTyped` marks the corner in
which the JavaScript returns a successfully parsed non-array value as the
products state (variant A's backup-recovery `return JSON.parse(backup)` has no
`Array.isArray` check, and variant B's load applies the parsed value without
checking it); this value is not representable as a typed catalog. -/
inductive BootCatalog where
  | ok (ps : List Product)
  | illTyped
deriving DecidableEq

/-- The demo seed catalog returned by variant A's initializer when both
storage keys are empty (src/App.tsx lines 94-109). -/
def demoSeed : List Product :=
  [ { id := "1"
      name := "Royal Velvet Sofa"
      category := "Furniture"
      description := "Premium black velvet sofa with gold trim."
      basePrice := 1200
      image := "https://images.unsplash.com/photo-1555041469-a586c61ea9bc?auto=format&fit=crop&q=80&w=400"
      remarks := "Flagship product"
      alertLimit := 5
      subProducts :=
        [ { id := "1-1", sku := "RVS-BLK-3S", name := "Royal Velvet Sofa (Midnight)"
            description := "3-Seater midnight black", color := "Midnight Black"
            price := 1200, quantity := 12, weight := "45kg"
            dimensions := "200x90x85cm"
            image := "https://images.unsplash.com/photo-1550226891-ef816aed4a98?auto=format&fit=crop&q=80&w=200"
            remarks := "" }
        , { id := "1-2", sku := "RVS-GLD-3S", name := ""
            description := "", color := "Royal Gold"
            price := 1350, quantity := 4, weight := "45kg"
            dimensions := "200x90x85cm"
            image := "https://images.unsplash.com/photo-1555041469-a586c61ea9bc?auto=format&fit=crop&q=80&w=200"
            remarks := "" } ] } ]

/-- Variant A's boot initializer (src/App.tsx lines 65-111).  Reads the
primary key; if present, immediately copies it verbatim to the safety-backup
key.  If absent, falls back to the backup key.  A found value is parsed: an
array becomes the catalog, a non-array yields the empty catalog, and a parse
exception triggers backup recovery (the backup's parsed value is returned
without an array check).  If nothing is found, the demo seed is returned and
nothing is written. -/
def bootLoadA (parse : String → JsParse) (st : Store) : BootCatalog × Store :=
  let st1 : Store :=
    match st.primary with
    | some s => { st with safety := some s }
    | none => st
  let saved : Option String :=
    match st.primary with
    | some s => some s
    | none => st.backup
  match saved with
  | none => (.ok demoSeed, st1)
  | some s =>
    match parse s with
    | .arr ps => (.ok ps, st1)
    | .nonArray => (.ok [], st1)
    | .err =>
      match st1.backup with
      | none => (.ok [], st1)
      | some b =>
        match parse b with
        | .arr ps => (.ok ps, st1)
        | .nonArray => (.illTyped, st1)
        | .err => (.ok [], st1)

/-- Variant B's load effect (src/App.tsx lines 1418-1429): read the primary
key only; apply the parsed value directly (without an array check); on a parse
failure merely log, leaving the initial empty catalog.  It writes nothing and
consults no backup or safety key, and loads no demo seed. -/
def loadEffectB (parse : String → JsParse) (st : Store) : BootCatalog × Store :=
  match st.primary with
  | some s =>
    match parse s with
    | .arr ps => (.ok ps, st)
    | .nonArray => (.illTyped, st)
    | .err => (.ok [], st)
  | none => (.ok [], st)

/-- A concrete durable value of length 51 for witness instantiation. -/
def longPrimary : String :=
  String.mk (List.replicate 51 'x')

/-- A concrete one-variant product used in witnesses and counterexamples. -/
def chairSub : SubProduct :=
  { id := "S1", sku := "C-1", name := "", description := "", color := "Black"
    price := 100, quantity := 1, weight := "", dimensions := "", image := ""
    remarks := "" }

/-- A concrete product owning `chairSub`. -/
def chairP : Product :=
  { id := "P1", name := "Chair", category := "Furniture", description := ""
    basePrice := 0, image := "", remarks := "", alertLimit := 5
    subProducts := [chairSub] }

/-- A concrete parse function: the string `"BK"` parses to `[chairP]`, every
other string throws. -/
def parseBK : String → JsParse :=
  fun s => if s = "BK" then .arr [chairP] else .err

/-- Outcome of an UpdateStock application: `success` (a user-visible update
message), `notFound` (a user-visible nothing-matched message), `noop`
(variant B's early return on a missing or zero quantity change). -/
inductive StockOutcome where
  | success
  | notFound
  | noop
deriving DecidableEq

/-- Variant A's per-product name filter (src/App.tsx lines 250-251): the
product name, or any variant name, contains the (possibly empty) lowercased
action product name as a substring. -/
def updNameMatchA (act : InventoryAction) (p : Product) : Bool :=
  includesJs (toLowerJs p.name) (toLowerJs (act.productName.getD ""))
    || p.subProducts.any fun sp =>
        includesJs (toLowerJs sp.name) (toLowerJs (act.productName.getD ""))

/-- Variant A's per-sub-product match (src/App.tsx lines 255-259): exact
case-insensitive SKU match, or color-contains match, or variant-name-contains
match, or the catch-all branch when no SKU, color, or product name was
supplied. -/
def updSpMatchA (act : InventoryAction) (sp : SubProduct) : Bool :=
  (match act.sku with
   | some s => s != "" && (toLowerJs sp.sku == toLowerJs s)
   | none => false)
  || (match act.color with
      | some c => c != "" && includesJs (toLowerJs sp.color) (toLowerJs c)
      | none => false)
  || (match act.productName with
      | some n => n != "" && includesJs (toLowerJs sp.name) (toLowerJs n)
      | none => false)
  || (!truthyOptStr act.sku && !truthyOptStr act.color && !truthyOptStr act.productName)

/-- One step of variant A's inner `subProducts.map` (src/App.tsx lines
254-264), with the JS mutable `updated` flag threaded as the second component:
a matched sub-product gets the (unclamped) quantity change added and sets the
flag. -/
def updSubStepA (act : InventoryAction) (st2 : List SubProduct × Bool)
    (sp : SubProduct) : List SubProduct × Bool :=
  if updSpMatchA act sp then
    (st2.1 ++ [{ sp with quantity := sp.quantity + act.quantityChange.getD 0 }],
      true)
  else (st2.1 ++ [sp], st2.2)

/-- One step of variant A's outer `prev.map` (src/App.tsx lines 249-268):
inside a name-matched product, rebuild the sub-product list via
`updSubStepA`; otherwise keep the product and the flag unchanged. -/
def updStepA (act : InventoryAction) (st : List Product × Bool) (p : Product) :
    List Product × Bool :=
  if updNameMatchA act p then
    let inner := p.subProducts.foldl (updSubStepA act) ([], st.2)
    (st.1 ++ [{ p with subProducts := inner.1 }], inner.2)
  else (st.1 ++ [p], st.2)

/-- Variant A's UPDATE_STOCK handler (src/App.tsx lines 246-278).  Returns the
new catalog when anything matched (with a success message, second component
`true`) and the previous catalog otherwise (not-found message, `false`), as
the source's `if (updated)` does. -/
def updateStockA (act : InventoryAction) (prev : List Product) :
    List Product × Bool :=
  let r := prev.foldl (updStepA act) ([], false)
  if r.2 then (r.1, true) else (prev, false)

/-- Variant B's lowercased SKU target (src/App.tsx line 1386): `undefined`
when the action's SKU is absent or empty (falsy). -/
def targetSkuB (act : InventoryAction) : Option String :=
  match act.sku with
  | some s => if s = "" then none else some (toLowerJs s)
  | none => none

/-- Variant B's lowercased product-name target (src/App.tsx line 1387). -/
def targetNameB (act : InventoryAction) : Option String :=
  match act.productName with
  | some s => if s = "" then none else some (toLowerJs s)
  | none => none

/-- Variant B's lowercased color target (src/App.tsx line 1388). -/
def targetColorB (act : InventoryAction) : Option String :=
  match act.color with
  | some s => if s = "" then none else some (toLowerJs s)
  | none => none

/-- Variant B's exact case-insensitive SKU match (src/App.tsx line 1394). -/
def bySkuB (act : InventoryAction) (sp : SubProduct) : Bool :=
  match targetSkuB act with
  | some s => toLowerJs sp.sku == s
  | none => false

/-- Variant B's exact case-insensitive product-name match (line 1392). -/
def matchesProductB (act : InventoryAction) (p : Product) : Bool :=
  match targetNameB act with
  | some n => toLowerJs p.name == n
  | none => false

/-- Variant B's product-name plus color-contains match (line 1395). -/
def byProductAndColorB (act : InventoryAction) (p : Product) (sp : SubProduct) :
    Bool :=
  matchesProductB act p
    && (match targetColorB act with
        | some c => includesJs (toLowerJs sp.color) c
        | none => false)

/-- Variant B's full per-sub-product match (line 1396): SKU match or
product-name-and-color match.  There is no product-name-alone rule. -/
def updMatchB (act : InventoryAction) (p : Product) (sp : SubProduct) : Bool :=
  bySkuB act sp || byProductAndColorB act p sp

/-- Variant B's UPDATE_STOCK branch of `applyInventoryAction` (src/App.tsx
lines 1383-1410): return untouched on a missing or zero quantity change; map
over every product and sub-product, clamping every matched sub-product's new
quantity at zero via `Math.max`; the JS `matched` flag is threaded through the
folds and selects the success or not-found message.  This is the inner
per-sub-product step (lines 1393-1401). -/
def updSubStepB (act : InventoryAction) (p : Product)
    (st2 : List SubProduct × Bool) (sp : SubProduct) :
    List SubProduct × Bool :=
  if updMatchB act p sp then
    (st2.1 ++ [{ sp with quantity := max 0 (sp.quantity + act.quantityChange.getD 0) }],
      true)
  else (st2.1 ++ [sp], st2.2)

/-- One step of variant B's outer `prev.map` (src/App.tsx lines 1391-1403). -/
def updStepB (act : InventoryAction) (st : List Product × Bool) (p : Product) :
    List Product × Bool :=
  let inner := p.subProducts.foldl (updSubStepB act p) ([], st.2)
  (st.1 ++ [{ p with subProducts := inner.1 }], inner.2)

/-- Variant B's UPDATE_STOCK branch of `applyInventoryAction`, continued. -/
def updateStockB (act : InventoryAction) (prev : List Product) :
    List Product × StockOutcome :=
  let change := act.quantityChange.getD 0
  if change = 0 then (prev, .noop)
  else
    let r := prev.foldl (updStepB act) ([], false)
    (r.1, if r.2 then .success else .notFound)

/-- The per-sub-product result of variant A's UPDATE_STOCK: a matched
sub-product gets the quantity change added with no clamping (src/App.tsx line
261), an unmatched one is returned unchanged. -/
def updSubAppliedA (act : InventoryAction) (sp : SubProduct) : SubProduct :=
  if updSpMatchA act sp then
    { sp with quantity := sp.quantity + act.quantityChange.getD 0 }
  else sp

/-- The per-product result of variant A's UPDATE_STOCK map. -/
def updAppliedA (act : InventoryAction) (p : Product) : Product :=
  if updNameMatchA act p then
    { p with subProducts := p.subProducts.map (updSubAppliedA act) }
  else p

/-- The per-sub-product result of variant B's UPDATE_STOCK: a matched
sub-product gets the quantity change added and the result clamped at zero via
`Math.max` (src/App.tsx line 1398), an unmatched one is returned unchanged. -/
def updSubAppliedB (act : InventoryAction) (p : Product) (sp : SubProduct) :
    SubProduct :=
  if updMatchB act p sp then
    { sp with quantity := max 0 (sp.quantity + act.quantityChange.getD 0) }
  else sp

/-- The per-product result of variant B's UPDATE_STOCK map. -/
def updAppliedB (act : InventoryAction) (p : Product) : Product :=
  { p with subProducts := p.subProducts.map (updSubAppliedB act p) }

/-- Specification-side description of the catalog-wide effect of variant A's
UPDATE_STOCK when no SKU, color, or product name is supplied: every variant of
every product gets the quantity change added. -/
def bumpAll (c : Int) (p : Product) : Product :=
  { p with subProducts := p.subProducts.map fun sp =>
      { sp with quantity := sp.quantity + c } }

/-- A concrete UpdateStock action carrying only a product name and a
quantity change (no SKU, no color). -/
def actNameLamp : InventoryAction :=
  { type := .UPDATE_STOCK, productName := some "Lamp", quantityChange := some (-2) }

/-- A concrete UpdateStock action matching `chairSub` by lowercase SKU. -/
def actSkuLower : InventoryAction :=
  { type := .UPDATE_STOCK, sku := some "c-1", quantityChange := some (-5) }

/-- A concrete UpdateStock action matching `chairSub` by SKU with a decrement
whose magnitude exceeds the current quantity. -/
def actSkuC1 : InventoryAction :=
  { type := .UPDATE_STOCK, sku := some "C-1", quantityChange := some (-5) }

/-- A concrete one-variant product named Lamp, used to exhibit the absence of
the claimed product-name-alone matching rule. -/
def lampSub : SubProduct :=
  { id := "LS", sku := "LAMP-1", name := "", description := "", color := "Default"
    price := 10, quantity := 5, weight := "", dimensions := "", image := ""
    remarks := "" }

/-- A concrete product owning `lampSub` as its only variant. -/
def lampP : Product :=
  { id := "L1", name := "Lamp", category := "General", description := ""
    basePrice := 10, image := "", remarks := "", alertLimit := 2
    subProducts := [lampSub] }

/-- Variant A's CREATE_PRODUCT branch of `handleVoiceCommand` (src/App.tsx
lines 230-244).  The handler dereferences `action.data.name` (and the other
payload fields) unconditionally, so when the optional `data` payload is absent
the dereference throws (modelled by `none`) and `setProducts` never runs.
With a present payload a fresh product is appended unconditionally: there is
no lookup of an existing product by name.  Note `alertLimit` uses JS `|| 10`,
so a supplied 0 falls back to 10. -/
def createProductA (newPid : String) (act : InventoryAction)
    (prev : List Product) : Option (List Product) :=
  match act.data with
  | none => none
  | some d =>
    some (prev ++
      [{ id := newPid
         name := optStrOr d.name (optStrOr act.productName "New Product")
         category := optStrOr d.category "General"
         description := optStrOr d.description ""
         basePrice := optIntOr d.basePrice 0
         image := placeholderImage
         remarks := optStrOr d.remarks ""
         alertLimit := optIntOr d.alertLimit 10
         subProducts := [] }])

/-- The products state after variant A's CREATE_PRODUCT handler: on a fault
the state update never runs and the catalog is unchanged. -/
def createStateA (newPid : String) (act : InventoryAction)
    (prev : List Product) : List Product :=
  (createProductA newPid act prev).getD prev

/-- `action.data || {}` in variant B's `applyInventoryAction` (line 1315). -/
def createDataB (act : InventoryAction) : ActionData :=
  act.data.getD {}

/-- `action.productName || data.name || 'Untitled Product'` (line 1316). -/
def createNameB (act : InventoryAction) : String :=
  optStrOr act.productName (optStrOr (createDataB act).name "Untitled Product")

/-- `typeof data.price === 'number' || typeof data.quantity === 'number'`
(line 1332): the payload carries variant-shaped fields. -/
def hasVariantFieldsB (act : InventoryAction) : Bool :=
  (createDataB act).price.isSome || (createDataB act).quantity.isSome

/-- The fresh product built by variant B's CREATE_PRODUCT when no existing
product matches (src/App.tsx lines 1319-1329): defaults category General,
alertLimit 10 (by a `typeof` check, so 0 stays 0), basePrice 0, placeholder
image, zero variants. -/
def newProductB (newPid : String) (act : InventoryAction) : Product :=
  { id := newPid
    name := createNameB act
    category := optStrOr (createDataB act).category "General"
    description := optStrOr (createDataB act).description ""
    basePrice := (createDataB act).basePrice.getD 0
    image := placeholderImage
    remarks := optStrOr (createDataB act).remarks ""
    alertLimit := (createDataB act).alertLimit.getD 10
    subProducts := [] }

/-- The new sub-product built by variant B's CREATE_PRODUCT when the payload
carries variant-shaped fields (src/App.tsx lines 1333-1345), relative to the
base product it is attached to. -/
def newSubB (newSid genSku : String) (act : InventoryAction) (base : Product) :
    SubProduct :=
  { id := newSid
    sku := optStrOr (createDataB act).sku (optStrOr act.sku genSku)
    name := (createDataB act).name.getD ""
    description := (createDataB act).description.getD ""
    color := optStrOr (createDataB act).color (optStrOr act.color "Default")
    price := (createDataB act).price.getD base.basePrice
    quantity := (createDataB act).quantity.getD 0
    weight := optStrOr (createDataB act).weight "0.5kg"
    dimensions := optStrOr (createDataB act).dimensions "10x10x2cm"
    image := base.image
    remarks := optStrOr (createDataB act).remarks "" }

/-- Variant B's CREATE_PRODUCT branch of `applyInventoryAction` (src/App.tsx
lines 1314-1356): look up an existing product by case-insensitive exact name
match; the base is the existing product (top-level fields untouched) or a
fresh defaulted product; a new sub-product is appended iff the payload carries
variant-shaped fields; the catalog replaces the existing product by id or
appends the new product. -/
def createProductB (newPid newSid genSku : String) (act : InventoryAction)
    (prev : List Product) : List Product :=
  let existing := prev.find? fun p => toLowerJs p.name == toLowerJs (createNameB act)
  let baseProduct := existing.getD (newProductB newPid act)
  let subs :=
    if hasVariantFieldsB act then
      baseProduct.subProducts ++ [newSubB newSid genSku act baseProduct]
    else baseProduct.subProducts
  let updated := { baseProduct with subProducts := subs }
  match existing with
  | some e => prev.map fun p => if p.id == e.id then updated else p
  | none => prev ++ [updated]

/-- The result of augmenting an existing product with variant-shaped payload
fields in variant B: the new sub-product is appended, all top-level fields are
preserved. -/
def augmentedB (newSid genSku : String) (act : InventoryAction) (e : Product) :
    Product :=
  { e with subProducts := e.subProducts ++ [newSubB newSid genSku act e] }

/-- The fresh product together with its one payload-built variant, for the
no-existing-match case of variant B with variant-shaped fields present. -/
def newProductWithSubB (newPid newSid genSku : String) (act : InventoryAction) :
    Product :=
  { newProductB newPid act with
      subProducts := [newSubB newSid genSku act (newProductB newPid act)] }

/-- A concrete CreateProduct action for the name Lamp with an empty (but
present) payload. -/
def actCreateLamp : InventoryAction :=
  { type := .CREATE_PRODUCT, productName := some "Lamp", data := some {} }

/-- A concrete CreateProduct action for the name Lamp with no payload at all. -/
def actCreateLampNoData : InventoryAction :=
  { type := .CREATE_PRODUCT, productName := some "Lamp" }

/-- The duplicate product that variant A appends for `actCreateLamp` even
though a product named Lamp already exists. -/
def lampDupe : Product :=
  { id := "NEW"
    name := "Lamp"
    category := "General"
    description := ""
    basePrice := 0
    image := placeholderImage
    remarks := ""
    alertLimit := 10
    subProducts := [] }

/-- A dynamically typed JavaScript value, as produced by `JSON.parse` and
inspected by the import path.  `undefV` is the result of accessing a missing
property. -/
inductive JVal where
  | null
  | undefV
  | bool (b : Bool)
  | num (n : Int)
  | str (s : String)
  | arr (elems : List JVal)
  | obj (fields : List (String × JVal))

/-- JS truthiness of a value. -/
def jtruthy : JVal → Bool
  | .null => false
  | .undefV => false
  | .bool b => b
  | .num n => n != 0
  | .str s => s != ""
  | .arr _ => true
  | .obj _ => true

/-- `Array.isArray`. -/
def isArrayJ : JVal → Bool
  | .arr _ => true
  | _ => false

/-- Object property lookup (first matching key, `undefined` when missing). -/
def jlookup (fields : List (String × JVal)) (k : String) : JVal :=
  match fields.find? (fun kv => kv.1 == k) with
  | some kv => kv.2
  | none => .undefV

/-- Property access `v.k` on a value already known not to be nullish:
objects look the key up, every other value yields `undefined`. -/
def jprop : JVal → String → JVal
  | .obj fields, k => jlookup fields k
  | _, _ => .undefV

/-- Property access `v.k` as the JS engine performs it: throws (`error`) on
`null` and `undefined`, otherwise as `jprop`. -/
def jget : JVal → String → Except Unit JVal
  | .null, _ => .error ()
  | .undefV, _ => .error ()
  | v, k => .ok (jprop v k)

/-- The string rendering used when a truthy non-string value flows through
`x || default` into a string-typed slot (a corner no claim exercises). -/
def jvalToDisplay : JVal → String
  | .str s => s
  | .num n => toString n
  | .bool b => if b then "true" else "false"
  | .null => "null"
  | .undefV => "undefined"
  | .arr _ => ""
  | .obj _ => ""

/-- JS `x || d` flowing into a string-typed slot. -/
def jstrOr (v : JVal) (d : String) : String :=
  if jtruthy v then jvalToDisplay v else d

/-- JS `Number(x)`: `none` models NaN.  String conversion covers integer
literals; fractional and exotic inputs (not exercised by any claim) are
modelled as NaN. -/
def jsNumberJs : JVal → Option Int
  | .num n => some n
  | .bool b => some (if b then 1 else 0)
  | .null => some 0
  | .undefV => none
  | .str s => if s = "" then some 0 else s.toInt?
  | .arr _ => none
  | .obj _ => none

/-- JS `Number(x) || 0`: zero and NaN both collapse to 0. -/
def jnumOrZero (v : JVal) : Int :=
  (jsNumberJs v).getD 0

/-- Variant A's per-sub-product sanitizer inside `handleFileUpload`
(src/App.tsx lines 379-391): throws on a nullish element, otherwise defaults
every field (`sku` to UNKNOWN-SKU, `color` to Default, numerics through
`Number(x) || 0`, the id to a freshly generated one). -/
def sanitizeSubJs (fresh : String) (v : JVal) : Except Unit SubProduct :=
  match v with
  | .null => .error ()
  | .undefV => .error ()
  | _ =>
    .ok { id := jstrOr (jprop v "id") fresh
          sku := jstrOr (jprop v "sku") "UNKNOWN-SKU"
          name := jstrOr (jprop v "name") ""
          description := jstrOr (jprop v "description") ""
          color := jstrOr (jprop v "color") "Default"
          price := jnumOrZero (jprop v "price")
          quantity := jnumOrZero (jprop v "quantity")
          weight := jstrOr (jprop v "weight") ""
          dimensions := jstrOr (jprop v "dimensions") ""
          image := jstrOr (jprop v "image") ""
          remarks := jstrOr (jprop v "remarks") "" }

/-- Sanitize a sequence of sub-product values, generating the i-th fresh id
for the i-th element lacking one. -/
def sanitizeSubsJs (fresh : Nat → String) : Nat → List JVal → Except Unit (List SubProduct)
  | _, [] => .ok []
  | i, v :: vs =>
    match sanitizeSubJs (fresh i) v with
    | .error e => .error e
    | .ok sp =>
      match sanitizeSubsJs fresh (i + 1) vs with
      | .error e => .error e
      | .ok rest => .ok (sp :: rest)

/-- Variant A's per-product sanitizer inside `handleFileUpload` (src/App.tsx
lines 370-392): defaults name to Imported Product, category to Uncategorized,
numerics through `Number(x) || 0`, `subProducts` to `[]` when not an array,
and generates a fresh id when none is present. -/
def sanitizeProductJs (freshP : String) (freshS : Nat → String) (v : JVal) :
    Except Unit Product :=
  match v with
  | .null => .error ()
  | .undefV => .error ()
  | _ =>
    match (match jprop v "subProducts" with
           | .arr xs => sanitizeSubsJs freshS 0 xs
           | _ => .ok []) with
    | .error e => .error e
    | .ok subs =>
      .ok { id := jstrOr (jprop v "id") freshP
            name := jstrOr (jprop v "name") "Imported Product"
            category := jstrOr (jprop v "category") "Uncategorized"
            description := jstrOr (jprop v "description") ""
            basePrice := jnumOrZero (jprop v "basePrice")
            image := jstrOr (jprop v "image") ""
            remarks := jstrOr (jprop v "remarks") ""
            alertLimit := jnumOrZero (jprop v "alertLimit")
            subProducts := subs }

/-- Sanitize the uploaded product sequence element-wise. -/
def sanitizeProductsJs (freshP : Nat → String) (freshS : Nat → Nat → String) :
    Nat → List JVal → Except Unit (List Product)
  | _, [] => .ok []
  | i, v :: vs =>
    match sanitizeProductJs (freshP i) (freshS i) v with
    | .error e => .error e
    | .ok p =>
      match sanitizeProductsJs freshP freshS (i + 1) vs with
      | .error e => .error e
      | .ok ps => .ok (p :: ps)

/-- Outcome of variant A's `handleFileUpload`: a JSON parse (or property
access) exception, a user-visible invalid-format rejection, a user-declined
confirmation, or a completed restore. -/
inductive UploadOutcome where
  | parseError
  | formatError
  | cancelled
  | restored
deriving DecidableEq

/-- Variant A's `handleFileUpload` (src/App.tsx lines 350-415), from the
parsed upload (`none` models a JSON.parse throw).  A non-array value with a
truthy `products` array is unwrapped to that array; a remaining non-array is
rejected with the invalid-format message; the array is sanitized element-wise
(a thrown property access is caught by the same catch as the parse); on
confirmation the catalog is replaced and immediately written to the primary
key only. -/
def uploadA (freshP : Nat → String) (freshS : Nat → Nat → String)
    (confirmed : Bool) (parsed : Option JVal) (prev : List Product)
    (st : Store) : UploadOutcome × List Product × Store :=
  match parsed with
  | none => (.parseError, prev, st)
  | some v =>
    let step1 : Except Unit JVal :=
      if isArrayJ v then .ok v
      else
        match jget v "products" with
        | .error e => .error e
        | .ok pv => .ok (if jtruthy pv && isArrayJ pv then pv else v)
    match step1 with
    | .error _ => (.parseError, prev, st)
    | .ok (.arr xs) =>
      (match sanitizeProductsJs freshP freshS 0 xs with
       | .error _ => (.parseError, prev, st)
       | .ok ps =>
         if confirmed then
           (.restored, ps, { st with primary := some (stringifyProducts ps) })
         else (.cancelled, prev, st))
    | .ok _ => (.formatError, prev, st)

/-- Outcome of variant B's `handleFileUpload` (src/App.tsx lines 1576-1595):
a parse failure shows an error message; a bare array is applied as the
catalog verbatim (no sanitization — `restoredRaw` carries the raw parsed
elements); any other successfully parsed value is ignored with no message and
no state change. -/
inductive UploadOutcomeB where
  | parseErrorB
  | restoredRaw (xs : List JVal)
  | silentIgnore

/-- Variant B's `handleFileUpload`, from the parsed upload. -/
def uploadB (parsed : Option JVal) : UploadOutcomeB :=
  match parsed with
  | none => .parseErrorB
  | some (.arr xs) => .restoredRaw xs
  | some _ => .silentIgnore

/-- Whether variant B's `handleFileUpload` calls `setProducts` at all. -/
def uploadBChangesState (parsed : Option JVal) : Bool :=
  match parsed with
  | some (.arr _) => true
  | _ => false

/-- The envelope upload of the claim's scenario:
`\x7b"products": [\x7b"name":"X"\x7d]\x7d`. -/
def envelopeX : JVal :=
  .obj [("products", .arr [.obj [("name", .str "X")]])]

/-- The product the scenario's sanitization must yield. -/
def productX (pid : String) : Product :=
  { id := pid
    name := "X"
    category := "Uncategorized"
    description := ""
    basePrice := 0
    image := ""
    remarks := ""
    alertLimit := 0
    subProducts := [] }

/-- Variant A's CSV header row (src/App.tsx line 290). -/
def headersA : List String :=
  ["Product ID", "Product Name", "Category", "Description", "Base Price",
    "Alert Limit", "Sub ID", "Sub Name", "Sub Description", "SKU", "Color",
    "Price", "Quantity", "Weight", "Dimensions"]

/-- Variant A's CSV rows (src/App.tsx lines 291-299): one row per
sub-product, or a single blank-variant row for a product with no variants. -/
def csvRowsA (ps : List Product) : List (List String) :=
  ps.flatMap fun p =>
    if p.subProducts.length == 0 then
      [[p.id, p.name, p.category, p.description, toString p.basePrice,
        toString p.alertLimit, "", "", "", "", "", "", "", "", ""]]
    else
      p.subProducts.map fun sp =>
        [p.id, p.name, p.category, p.description, toString p.basePrice,
          toString p.alertLimit, sp.id, strOr sp.name "", strOr sp.description "",
          sp.sku, sp.color, toString sp.price, toString sp.quantity, sp.weight,
          sp.dimensions]

/-- Variant A's `csvContent` (src/App.tsx lines 301-302): the data-URI prefix
followed by the header and the rows, each row joined raw with commas — no
escaping of any kind.  (The source then applies `encodeURI`, which leaves
commas and quotes unchanged.) -/
def exportCsvA (ps : List Product) : String :=
  "data:text/csv;charset=utf-8," ++
    String.intercalate "\n"
      (String.intercalate "," headersA
        :: (csvRowsA ps).map (String.intercalate ","))

/-- Variant B's CSV header row (src/App.tsx line 1536). -/
def headersB : List String :=
  ["Product", "Category", "SKU", "Color", "Price", "Quantity", "Weight",
    "Dimensions", "Remarks"]

/-- Variant B's CSV rows (src/App.tsx lines 1539-1551): one row per
sub-product; products with no variants are omitted. -/
def csvRowsB (ps : List Product) : List (List String) :=
  ps.flatMap fun p =>
    p.subProducts.map fun sp =>
      [p.name, p.category, sp.sku, sp.color, toString sp.price,
        toString sp.quantity, sp.weight, sp.dimensions, strOr sp.remarks ""]

/-- Variant B's `escapeCsv` (src/App.tsx lines 1554-1560): a value containing
a double quote, comma, or newline is wrapped in double quotes with every
internal double quote doubled (the global regex replace); anything else is
emitted unchanged. -/
def escapeCsv (v : String) : String :=
  if v.data.contains '"' || v.data.contains ',' || v.data.contains '\n' then
    "\"" ++ String.mk (v.data.flatMap fun c => if c = '"' then ['"', '"'] else [c])
      ++ "\""
  else v

/-- Variant B's `csvContent` (src/App.tsx lines 1562-1565). -/
def exportCsvB (ps : List Product) : String :=
  String.intercalate "\n"
    (String.intercalate "," headersB
      :: (csvRowsB ps).map fun row => String.intercalate "," (row.map escapeCsv))

/-- Verification-side inverse of the quote doubling: collapse every doubled
double quote back to a single one. -/
def collapseQuotes : List Char → List Char
  | [] => []
  | [c] => [c]
  | c :: c2 :: cs2 =>
    if c = '"' ∧ c2 = '"' then '"' :: collapseQuotes cs2
    else c :: collapseQuotes (c2 :: cs2)

/-- Verification-side RFC-4180 field decoder: strip the surrounding quotes of
a quoted field and collapse doubled quotes; return an unquoted field as is. -/
def csvUnescape (v : String) : String :=
  match v.data with
  | [] => v
  | c :: rest => if c = '"' then String.mk (collapseQuotes rest.dropLast) else v

/-- A sub-product for the CSV counterexample catalog. -/
def commaSub : SubProduct :=
  { id := "CS", sku := "AB-1", name := "", description := "", color := "Red"
    price := 5, quantity := 2, weight := "", dimensions := "", image := ""
    remarks := "" }

/-- A product whose name contains a comma. -/
def commaP : Product :=
  { id := "CP", name := "a,b", category := "General", description := ""
    basePrice := 5, image := "", remarks := "", alertLimit := 1
    subProducts := [commaSub] }

theorem deriveAlerts_inner (p : Product) (now : Int) :
    ∀ (subs : List SubProduct) (acc : List Alert),
      subs.foldl
        (fun acc2 sp =>
          if sp.quantity ≤ p.alertLimit then acc2 ++ [mkAlert p sp now] else acc2)
        acc
      = acc ++ (subs.filter fun sp => decide (sp.quantity ≤ p.alertLimit)).map
          (fun sp => mkAlert p sp now) := by
  intro subs
  induction subs with
  | nil => intro acc; simp
  | cons sp rest ih =>
    intro acc
    by_cases h : sp.quantity ≤ p.alertLimit
    · simp [List.foldl_cons, h, ih]
    · simp [List.foldl_cons, h, ih]

theorem deriveAlerts_outer (now : Int) :
    ∀ (ps : List Product) (acc : List Alert),
      ps.foldl
        (fun acc p =>
          p.subProducts.foldl
            (fun acc2 sp =>
              if sp.quantity ≤ p.alertLimit then acc2 ++ [mkAlert p sp now] else acc2)
            acc)
        acc
      = acc ++ alertsSpec ps now := by
  intro ps
  induction ps with
  | nil => intro acc; simp [alertsSpec]
  | cons p rest ih =>
    intro acc
    rw [List.foldl_cons, deriveAlerts_inner, ih]
    simp only [alertsSpec, List.flatMap_cons, List.append_assoc]

theorem deriveAlerts_eq_spec (ps : List Product) (now : Int) :
    deriveAlerts ps now = alertsSpec ps now := by
  rw [deriveAlerts, deriveAlerts_outer, List.nil_append]

/-- C3.  Alert derivation: for every Catalog, the derived alert sequence is
exactly the low-stock sub-products in catalog order then sub-product order
(one entry per sub-product with `quantity <= alertLimit`, no other entries,
with composite id `productId-subProductId`); membership is characterised by
the boundary condition `quantity <= alertLimit`, and the number of alerts is
exactly the number of low-stock sub-products. -/
theorem alert_derivation_characterization (ps : List Product) (now : Int) :
    deriveAlerts ps now
        = ps.flatMap (fun p =>
            (p.subProducts.filter fun sp => decide (sp.quantity ≤ p.alertLimit)).map
              fun sp =>
                { id := p.id ++ "-" ++ sp.id
                  productName := strOr sp.name p.name
                  sku := sp.sku
                  currentQuantity := sp.quantity
                  limit := p.alertLimit
                  timestamp := now })
      ∧ (∀ a : Alert,
          a ∈ deriveAlerts ps now
            ↔ ∃ p ∈ ps, ∃ sp ∈ p.subProducts,
                sp.quantity ≤ p.alertLimit ∧ a = mkAlert p sp now)
      ∧ (deriveAlerts ps now).length
          = (ps.map fun p =>
              (p.subProducts.filter fun sp =>
                decide (sp.quantity ≤ p.alertLimit)).length).sum := by
  refine ⟨?_, ?_, ?_⟩
  · rw [deriveAlerts_eq_spec]; rfl
  · intro a
    rw [deriveAlerts_eq_spec, alertsSpec]
    simp only [List.mem_flatMap, List.mem_map, List.mem_filter, decide_eq_true_eq]
    constructor
    · rintro ⟨p, hp, sp, ⟨hsp, hq⟩, ha⟩
      exact ⟨p, hp, sp, hsp, hq, ha.symm⟩
    · rintro ⟨p, hp, sp, hsp, hq, ha⟩
      exact ⟨p, hp, sp, ⟨hsp, hq⟩, ha.symm⟩
  · rw [deriveAlerts_eq_spec, alertsSpec, List.length_flatMap]
    refine congrArg List.sum (List.map_congr_left ?_)
    intro p _
    simp [Function.comp, List.length_map]

/-- C1.  Write guard: for every save attempt where the in-memory catalog is
empty, the deliberate-clear flag is not set, and durable storage at the
primary key holds a value of length above the threshold 50, the whole durable
store after the save attempt equals the store before it, in variant A (for any
first-render state) and in variant B (for any loading state, which skips every
empty-catalog write). -/
theorem write_guard_preserves_durable_value (fr loading : Bool) (st : Store)
    (d : String) (hp : st.primary = some d) (hd : 50 < d.length) :
    saveEffectA fr [] false st = st ∧ saveEffectB loading [] st = st := by
  constructor
  · unfold saveEffectA
    cases fr
    · simp [existingNonTrivial, hp, hd]
    · simp
  · unfold saveEffectB
    simp

/-- Witness for C1 at a concrete store whose primary value has length 51. -/
theorem write_guard_preserves_durable_value_witness :
    saveEffectA false [] false ⟨some longPrimary, none, none⟩
        = ⟨some longPrimary, none, none⟩
      ∧ saveEffectB false [] ⟨some longPrimary, none, none⟩
        = ⟨some longPrimary, none, none⟩ :=
  write_guard_preserves_durable_value false false ⟨some longPrimary, none, none⟩
    longPrimary rfl (by decide)

/-- C4 counterexample.  The claim fails on variant B's load effect: with the
primary key absent and the backup key holding a parseable catalog `[chairP]`,
the claim requires the backup to be read (yielding `[chairP]`), but variant B
yields the empty catalog; and with the primary key present, the claim requires
its value to be copied to the safety-backup key, but variant B leaves the
store untouched (safety slot still empty). -/
theorem boot_contract_counterexample :
    loadEffectB parseBK ⟨none, some "BK", none⟩ = (.ok [], ⟨none, some "BK", none⟩)
      ∧ (loadEffectB parseBK ⟨none, some "BK", none⟩).1 ≠ .ok [chairP]
      ∧ (loadEffectB parseBK ⟨some "PV", none, none⟩).2.safety = none := by
  refine ⟨rfl, ?_, ?_⟩
  · decide
  · decide

/-- C4 amended.  Variant A's boot initializer satisfies the claimed contract:
a present primary value is copied verbatim to the safety-backup key (and
nothing else in the store changes); an absent primary falls back to the backup
key; a parse failure on the found value triggers a parse of the backup key,
and if that also fails (or no backup exists) the catalog is empty; when no
value is found anywhere the demo seed is loaded and the first-render save
effect writes nothing.  Variant B's load effect, by contrast, writes nothing
ever, reads only the primary key, yields the empty catalog when the primary
key is absent or fails to parse, and never loads the demo seed. -/
theorem boot_contract_amended (parse : String → JsParse) (st : Store) :
    (∀ s, st.primary = some s →
        (bootLoadA parse st).2 = { st with safety := some s })
      ∧ (∀ s ps, st.primary = some s → parse s = .arr ps →
          (bootLoadA parse st).1 = .ok ps)
      ∧ (∀ s b ps, st.primary = some s → parse s = .err → st.backup = some b →
          parse b = .arr ps → (bootLoadA parse st).1 = .ok ps)
      ∧ (∀ s b, st.primary = some s → parse s = .err → st.backup = some b →
          parse b = .err → (bootLoadA parse st).1 = .ok [])
      ∧ (∀ s, st.primary = some s → parse s = .err → st.backup = none →
          (bootLoadA parse st).1 = .ok [])
      ∧ (∀ b ps, st.primary = none → st.backup = some b → parse b = .arr ps →
          (bootLoadA parse st).1 = .ok ps)
      ∧ (st.primary = none → st.backup = none →
          bootLoadA parse st = (.ok demoSeed, st)
            ∧ saveEffectA true demoSeed false st = st)
      ∧ (loadEffectB parse st).2 = st
      ∧ (st.primary = none → (loadEffectB parse st).1 = .ok [])
      ∧ (∀ s, st.primary = some s → parse s = .err →
          (loadEffectB parse st).1 = .ok []) := by
  refine ⟨?_, ?_, ?_, ?_, ?_, ?_, ?_, ?_, ?_, ?_⟩
  · intro s hs
    simp only [bootLoadA, hs]
    cases parse s with
    | err =>
      cases hb : st.backup with
      | none => rfl
      | some b => cases hpb : parse b <;> simp [hpb]
    | nonArray => rfl
    | arr ps => rfl
  · intro s ps hs hparse; simp [bootLoadA, hs, hparse]
  · intro s b ps hs hparse hb hpb; simp [bootLoadA, hs, hparse, hb, hpb]
  · intro s b hs hparse hb hpb; simp [bootLoadA, hs, hparse, hb, hpb]
  · intro s hs hparse hb; simp [bootLoadA, hs, hparse, hb]
  · intro b ps hp hb hpb; simp [bootLoadA, hp, hb, hpb]
  · intro hp hb
    constructor
    · simp [bootLoadA, hp, hb]
    · rfl
  · rcases hst : st.primary with _ | s
    · simp [loadEffectB, hst]
    · simp only [loadEffectB, hst]
      rcases parse s with _ | _ | ps <;> rfl
  · intro hp; simp [loadEffectB, hp]
  · intro s hs hparse; simp [loadEffectB, hs, hparse]

/-- Witness for C4 at a concrete parse function and concrete stores,
exercising the backup-recovery conjunct (primary present but corrupt, backup
parseable) and the demo-seed conjunct (both keys absent). -/
theorem boot_contract_amended_witness :
    (bootLoadA parseBK ⟨some "PV", some "BK", none⟩).1 = .ok [chairP]
      ∧ bootLoadA parseBK ⟨none, none, none⟩ = (.ok demoSeed, ⟨none, none, none⟩)
      ∧ (loadEffectB parseBK ⟨none, some "BK", none⟩).1 = .ok [] :=
  ⟨(boot_contract_amended parseBK ⟨some "PV", some "BK", none⟩).2.2.1 "PV" "BK"
      [chairP] rfl (by decide) rfl (by decide),
   ((boot_contract_amended parseBK ⟨none, none, none⟩).2.2.2.2.2.2.1 rfl rfl).1,
   (boot_contract_amended parseBK ⟨none, some "BK", none⟩).2.2.2.2.2.2.2.2.1 rfl⟩

theorem strInfixJs_nil (l : List Char) : strInfixJs [] l = true := by
  cases l <;> rfl



theorem updSubFoldA (act : InventoryAction) :
    ∀ (subs : List SubProduct) (acc : List SubProduct) (b : Bool),
      subs.foldl (updSubStepA act) (acc, b)
        = (acc ++ subs.map (updSubAppliedA act), b || subs.any (updSpMatchA act)) := by
  intro subs
  induction subs with
  | nil => intro acc b; simp
  | cons sp rest ih =>
    intro acc b
    rw [List.foldl_cons]
    by_cases h : updSpMatchA act sp
    · simp [updSubStepA, updSubAppliedA, h, ih]
    · simp [updSubStepA, updSubAppliedA, h, ih]

theorem updFoldA (act : InventoryAction) :
    ∀ (ps : List Product) (acc : List Product) (b : Bool),
      ps.foldl (updStepA act) (acc, b)
        = (acc ++ ps.map (updAppliedA act),
          b || ps.any fun p =>
            updNameMatchA act p && p.subProducts.any (updSpMatchA act)) := by
  intro ps
  induction ps with
  | nil => intro acc b; simp
  | cons p rest ih =>
    intro acc b
    rw [List.foldl_cons]
    by_cases h : updNameMatchA act p
    · have hstep : updStepA act (acc, b) p
          = (acc ++ [updAppliedA act p], b || p.subProducts.any (updSpMatchA act)) := by
        simp [updStepA, updAppliedA, h, updSubFoldA act]
      rw [hstep, ih]
      simp [h, Bool.or_assoc]
    · have hstep : updStepA act (acc, b) p = (acc ++ [p], b) := by
        simp [updStepA, h]
      rw [hstep, ih]
      simp [updAppliedA, h]

theorem updSubFoldB (act : InventoryAction) (p : Product) :
    ∀ (subs : List SubProduct) (acc : List SubProduct) (b : Bool),
      subs.foldl (updSubStepB act p) (acc, b)
        = (acc ++ subs.map (updSubAppliedB act p), b || subs.any (updMatchB act p)) := by
  intro subs
  induction subs with
  | nil => intro acc b; simp
  | cons sp rest ih =>
    intro acc b
    rw [List.foldl_cons]
    by_cases h : updMatchB act p sp
    · simp [updSubStepB, updSubAppliedB, h, ih]
    · simp [updSubStepB, updSubAppliedB, h, ih]

theorem updFoldB (act : InventoryAction) :
    ∀ (ps : List Product) (acc : List Product) (b : Bool),
      ps.foldl (updStepB act) (acc, b)
        = (acc ++ ps.map (updAppliedB act),
          b || ps.any fun p => p.subProducts.any (updMatchB act p)) := by
  intro ps
  induction ps with
  | nil => intro acc b; simp
  | cons p rest ih =>
    intro acc b
    rw [List.foldl_cons]
    have hstep : updStepB act (acc, b) p
        = (acc ++ [updAppliedB act p], b || p.subProducts.any (updMatchB act p)) := by
      simp [updStepB, updAppliedB, updSubFoldB act p]
    rw [hstep, ih]
    simp [Bool.or_assoc]

theorem updateStockB_eq (act : InventoryAction) (prev : List Product)
    (hne : act.quantityChange.getD 0 ≠ 0) :
    updateStockB act prev
      = (prev.map (updAppliedB act),
        if prev.any (fun p => p.subProducts.any (updMatchB act p))
          then .success else .notFound) := by
  unfold updateStockB
  rw [if_neg hne, updFoldB act]
  simp

theorem updateStockA_eq (act : InventoryAction) (prev : List Product) :
    updateStockA act prev
      = (if prev.any (fun p =>
            updNameMatchA act p && p.subProducts.any (updSpMatchA act))
          then prev.map (updAppliedA act) else prev,
        prev.any fun p =>
          updNameMatchA act p && p.subProducts.any (updSpMatchA act)) := by
  unfold updateStockA
  rw [updFoldA act]
  by_cases h : prev.any fun p =>
      updNameMatchA act p && p.subProducts.any (updSpMatchA act)
  · simp [h]
  · simp [h]

/-- C5 counterexample.  The claimed matching rule (c) — product-name match
alone when the product has exactly one variant and neither SKU nor color was
supplied — does not exist: on a catalog with the single one-variant product
Lamp, an UpdateStock action carrying only the product name Lamp and a
quantity change leaves the catalog unchanged and reports not-found in
variant B, instead of updating the single variant to quantity 3 as the claim
requires. -/
theorem update_stock_matching_counterexample :
    updateStockB actNameLamp [lampP] = ([lampP], .notFound)
    ∧ (updateStockB actNameLamp [lampP]).1
      ≠ [{ lampP with subProducts := [{ lampSub with quantity := 3 }] }] := by
  constructor
  · rfl
  · decide

/-- C5 amended.  In variant B, the matched sub-products of an UpdateStock
action (with a non-zero quantity change) are exactly those satisfying
(a) exact case-insensitive SKU match or (b) exact case-insensitive
product-name match combined with color-contains match; there is no
product-name-alone rule (when no color target is supplied, matching reduces
to the SKU rule); every matching sub-product is updated (fan-out: the result
is a catalog-wide map applying the clamped update to every match), and when
no sub-product matches the catalog is unchanged and a not-found outcome is
reported, while any match yields a success outcome. -/
theorem update_stock_matching_amended (act : InventoryAction)
    (prev : List Product) (c : Int) (hc : act.quantityChange = some c)
    (hne : c ≠ 0) :
    (updateStockB act prev).1 = prev.map (updAppliedB act)
      ∧ (∀ p sp, updMatchB act p sp = (bySkuB act sp || byProductAndColorB act p sp))
      ∧ (targetColorB act = none → ∀ p sp, updMatchB act p sp = bySkuB act sp)
      ∧ ((∀ p ∈ prev, ∀ sp ∈ p.subProducts, updMatchB act p sp = false) →
          updateStockB act prev = (prev, .notFound))
      ∧ ((∃ p ∈ prev, ∃ sp ∈ p.subProducts, updMatchB act p sp = true) →
          (updateStockB act prev).2 = .success) := by
  have hg0 : act.quantityChange.getD 0 ≠ 0 := by
    rw [hc]; simpa using hne
  refine ⟨?_, ?_, ?_, ?_, ?_⟩
  · rw [updateStockB_eq act prev hg0]
  · intro p sp; rfl
  · intro h p sp
    simp [updMatchB, byProductAndColorB, h]
  · intro h
    have hany : (prev.any fun p => p.subProducts.any (updMatchB act p)) = false := by
      rw [List.any_eq_false]
      intro p hp
      rw [Bool.not_eq_true, List.any_eq_false]
      intro sp hsp
      simp [h p hp sp hsp]
    have hmap : prev.map (updAppliedB act) = prev := by
      have hid : ∀ p ∈ prev, updAppliedB act p = p := by
        intro p hp
        unfold updAppliedB
        have hsubs : p.subProducts.map (updSubAppliedB act p) = p.subProducts := by
          have h2 : ∀ sp ∈ p.subProducts, updSubAppliedB act p sp = sp := by
            intro sp hsp
            simp [updSubAppliedB, h p hp sp hsp]
          rw [List.map_congr_left h2, List.map_id']
        rw [hsubs]
      rw [List.map_congr_left hid, List.map_id']
    rw [updateStockB_eq act prev hg0, hmap, hany]
    rfl
  · rintro ⟨p, hp, sp, hsp, hm⟩
    have hany : (prev.any fun p => p.subProducts.any (updMatchB act p)) = true := by
      rw [List.any_eq_true]
      refine ⟨p, hp, ?_⟩
      rw [List.any_eq_true]
      exact ⟨sp, hsp, hm⟩
    rw [updateStockB_eq act prev hg0]
    simp [hany]

/-- Witness for C5 at a concrete catalog and action: an exact case-insensitive
SKU match exists, so the outcome is success. -/
theorem update_stock_matching_amended_witness :
    (updateStockB actSkuLower [chairP]).2 = .success :=
  (update_stock_matching_amended _ [chairP] (-5) rfl (by decide)).2.2.2.2
    ⟨chairP, by simp, chairSub, by simp [chairP], by decide⟩

/-- C2 counterexample.  Variant A's UPDATE_STOCK does not clamp: on the
catalog `[chairP]` (single variant `chairSub` with quantity 1), an UpdateStock
action matching by SKU with quantity change -5 persists quantity -4, not the
claimed exact 0. -/
theorem update_stock_clamping_counterexample :
    ((updateStockA actSkuC1 [chairP]).1.map fun p =>
        p.subProducts.map fun sp => sp.quantity) = [[-4]]
      ∧ ((updateStockA actSkuC1 [chairP]).1.map fun p =>
        p.subProducts.map fun sp => sp.quantity) ≠ [[0]] := by
  constructor
  · decide
  · decide

/-- C2 amended.  In variant B, for every catalog and UpdateStock action with a
non-zero quantity change: quantities stay non-negative (given they were), and
every matched sub-product whose quantity is smaller than the magnitude of a
negative change ends at exactly 0.  (In variant A the change is applied with
no clamping and the result can be negative, as the counterexample shows.) -/
theorem update_stock_clamping_amended (act : InventoryAction)
    (prev : List Product) (c : Int) (hc : act.quantityChange = some c)
    (hne : c ≠ 0) :
    ((∀ p ∈ prev, ∀ sp ∈ p.subProducts, 0 ≤ sp.quantity) →
        ∀ p' ∈ (updateStockB act prev).1, ∀ sp' ∈ p'.subProducts, 0 ≤ sp'.quantity)
      ∧ (∀ p ∈ prev, ∀ sp ∈ p.subProducts, updMatchB act p sp = true →
          sp.quantity < -c →
          ∃ p' ∈ (updateStockB act prev).1, ∃ sp' ∈ p'.subProducts,
            sp'.id = sp.id ∧ sp'.quantity = 0) := by
  have hg : act.quantityChange.getD 0 = c := by rw [hc]; rfl
  have hg0 : act.quantityChange.getD 0 ≠ 0 := by rw [hg]; exact hne
  have h1 : (updateStockB act prev).1 = prev.map (updAppliedB act) := by
    rw [updateStockB_eq act prev hg0]
  constructor
  · intro h0 p' hp' sp' hsp'
    rw [h1] at hp'
    rcases List.mem_map.mp hp' with ⟨p, hp, rfl⟩
    unfold updAppliedB at hsp'
    rcases List.mem_map.mp hsp' with ⟨sp, hsp, rfl⟩
    unfold updSubAppliedB
    by_cases hm : updMatchB act p sp
    · simp only [hm, if_true]
      exact le_max_left 0 _
    · simp only [hm, if_false]
      exact h0 p hp sp hsp
  · intro p hp sp hsp hm hlt
    refine ⟨updAppliedB act p, ?_, updSubAppliedB act p sp, ?_, ?_, ?_⟩
    · rw [h1]
      exact List.mem_map_of_mem _ hp
    · unfold updAppliedB
      exact List.mem_map_of_mem _ hsp
    · simp [updSubAppliedB, hm]
    · simp only [updSubAppliedB, hm, if_true, hg]
      omega

/-- Witness for C2 at a concrete catalog: decrementing `chairSub` (quantity 1)
by 5 through a SKU match yields a sub-product with the same id and quantity
exactly 0. -/
theorem update_stock_clamping_amended_witness :
    ∃ p' ∈ (updateStockB actSkuLower [chairP]).1,
      ∃ sp' ∈ p'.subProducts, sp'.id = chairSub.id ∧ sp'.quantity = 0 :=
  (update_stock_clamping_amended actSkuLower [chairP] (-5) rfl (by decide)).2
    chairP (by simp) chairSub (by simp [chairP]) (by decide) (by decide)

/-- C9.  In variant A, an UpdateStock action that supplies a quantity change
but no SKU, no color, and no product name matches every sub-product of every
product: the empty product-name substring match succeeds on every product and
the no-criteria branch matches every variant, so every quantity in the whole
catalog is changed by the quantity change and the outcome is reported as a
successful update (given the catalog has at least one variant to update). -/
theorem no_criteria_update_matches_all (prev : List Product) (c : Int)
    (h : ∃ p ∈ prev, p.subProducts ≠ []) :
    updateStockA { type := .UPDATE_STOCK, quantityChange := some c } prev
      = (prev.map (bumpAll c), true) := by
  have hname : ∀ p : Product,
      updNameMatchA { type := .UPDATE_STOCK, quantityChange := some c } p = true := by
    intro p
    unfold updNameMatchA
    unfold includesJs
    rw [show (toLowerJs ((({ type := .UPDATE_STOCK, quantityChange := some c } :
        InventoryAction)).productName.getD "")).data = [] from rfl]
    rw [strInfixJs_nil]
    simp
  have hspm : ∀ sp : SubProduct,
      updSpMatchA { type := .UPDATE_STOCK, quantityChange := some c } sp = true := by
    intro sp
    rfl
  have hm : (prev.any fun p =>
      updNameMatchA { type := .UPDATE_STOCK, quantityChange := some c } p
        && p.subProducts.any
          (updSpMatchA { type := .UPDATE_STOCK, quantityChange := some c })) = true := by
    rcases h with ⟨p, hp, hnil⟩
    rw [List.any_eq_true]
    refine ⟨p, hp, ?_⟩
    obtain ⟨sp, hsp⟩ := List.exists_mem_of_ne_nil _ hnil
    rw [hname p]
    simp only [Bool.true_and, List.any_eq_true]
    exact ⟨sp, hsp, hspm sp⟩
  have happ : ∀ p ∈ prev,
      updAppliedA { type := .UPDATE_STOCK, quantityChange := some c } p
        = bumpAll c p := by
    intro p _
    unfold updAppliedA bumpAll
    rw [hname p]
    simp only [if_true]
    refine congrArg (fun subs => { p with subProducts := subs }) ?_
    apply List.map_congr_left
    intro sp _
    unfold updSubAppliedA
    rw [hspm sp]
    simp only [if_true]
    rfl
  rw [updateStockA_eq, hm]
  simp only [if_true]
  rw [List.map_congr_left happ]

/-- Witness for C9 on a concrete one-product catalog with one variant. -/
theorem no_criteria_update_matches_all_witness :
    updateStockA { type := .UPDATE_STOCK, quantityChange := some 3 } [chairP]
      = ([chairP].map (bumpAll 3), true) :=
  no_criteria_update_matches_all [chairP] 3 ⟨chairP, by simp, by simp [chairP]⟩

/-- C6 counterexample.  Variant A's CREATE_PRODUCT performs no lookup of an
existing product: on a catalog already containing the product Lamp, a
CreateProduct action for Lamp appends a second product also named Lamp,
instead of augmenting the existing one, so the reconciliation claim fails as
stated. -/
theorem create_product_reconciliation_counterexample :
    createProductA "NEW" actCreateLamp [lampP] = some [lampP, lampDupe]
      ∧ (createProductA "NEW" actCreateLamp [lampP]).getD [] ≠ [lampP]
      ∧ lampDupe.name = lampP.name := by
  refine ⟨?_, ?_, ?_⟩
  · decide
  · decide
  · rfl

/-- C6 amended.  Variant B's CREATE_PRODUCT implements the claimed
reconciliation: an existing product is looked up by case-insensitive exact
name match; if none exists, exactly one new product is appended carrying the
generated id and (when the payload is absent) the defaults category General,
alertLimit 10, basePrice 0 and zero variants — in particular the Lamp
scenario; if one exists, the catalog keeps it untouched when no variant-shaped
fields were supplied, and otherwise replaces it by the same product with the
new sub-product appended and every top-level field preserved.  Variant A, by
contrast, always appends a fresh product (see the counterexample). -/
theorem create_product_reconciliation_amended (newPid newSid genSku : String)
    (act : InventoryAction) (prev : List Product) :
    ((prev.find? fun p => toLowerJs p.name == toLowerJs (createNameB act)) = none →
        hasVariantFieldsB act = false →
        createProductB newPid newSid genSku act prev = prev ++ [newProductB newPid act])
      ∧ ((prev.find? fun p => toLowerJs p.name == toLowerJs (createNameB act)) = none →
          hasVariantFieldsB act = true →
          createProductB newPid newSid genSku act prev
            = prev ++ [newProductWithSubB newPid newSid genSku act])
      ∧ (∀ e, (prev.find? fun p => toLowerJs p.name == toLowerJs (createNameB act)) = some e →
          hasVariantFieldsB act = false →
          createProductB newPid newSid genSku act prev
            = prev.map fun p => if p.id == e.id then e else p)
      ∧ (∀ e, (prev.find? fun p => toLowerJs p.name == toLowerJs (createNameB act)) = some e →
          hasVariantFieldsB act = true →
          createProductB newPid newSid genSku act prev
            = prev.map fun p => if p.id == e.id then augmentedB newSid genSku act e else p)
      ∧ (act.data = none →
          (newProductB newPid act).id = newPid
            ∧ (newProductB newPid act).name = optStrOr act.productName "Untitled Product"
            ∧ (newProductB newPid act).category = "General"
            ∧ (newProductB newPid act).basePrice = 0
            ∧ (newProductB newPid act).alertLimit = 10
            ∧ (newProductB newPid act).subProducts = [])
      ∧ (act = actCreateLampNoData →
          (∀ p ∈ prev, toLowerJs p.name ≠ "lamp") →
          createProductB newPid newSid genSku act prev
            = prev ++ [newProductB newPid act]
            ∧ (newProductB newPid act).name = "Lamp"
            ∧ (newProductB newPid act).subProducts = []) := by
  refine ⟨?_, ?_, ?_, ?_, ?_, ?_⟩
  · intro hfind hvar
    unfold createProductB
    rw [hfind]
    simp [hvar]
  · intro hfind hvar
    unfold createProductB
    rw [hfind]
    simp [hvar, newProductWithSubB, newProductB]
  · intro e hfind hvar
    unfold createProductB
    rw [hfind]
    simp [hvar]
  · intro e hfind hvar
    unfold createProductB
    rw [hfind]
    simp [hvar, augmentedB]
  · intro hdata
    refine ⟨rfl, ?_, ?_, ?_, ?_, rfl⟩ <;>
      simp [newProductB, createNameB, createDataB, hdata, optStrOr, strOr]
  · intro hact hnames
    have hfind : (prev.find? fun p =>
        toLowerJs p.name == toLowerJs (createNameB act)) = none := by
      rw [List.find?_eq_none]
      intro p hp
      rw [hact]
      simpa using hnames p hp
    have hvar : hasVariantFieldsB act = false := by rw [hact]; rfl
    refine ⟨?_, ?_, ?_⟩
    · unfold createProductB
      rw [hfind]
      simp [hvar]
    · rw [hact]; rfl
    · rw [hact]; rfl

/-- Witness for C6: the Lamp scenario on the empty catalog, through the
no-match no-variant-fields conjunct. -/
theorem create_product_reconciliation_amended_witness :
    createProductB "NP" "NS" "SK" actCreateLampNoData []
      = [] ++ [newProductB "NP" actCreateLampNoData] :=
  (create_product_reconciliation_amended "NP" "NS" "SK" actCreateLampNoData []).1
    rfl rfl

/-- C10.  In variant A, a CreateProduct action whose optional `data` payload
is absent makes the handler dereference `action.data.name` on an undefined
value and throw (result `none`), so no product is created and the catalog is
left unchanged by the fault. -/
theorem create_fault_on_missing_payload (newPid : String)
    (pn sku color : Option String) (qc : Option Int) (reason : Option String)
    (prev : List Product) :
    createProductA newPid ⟨.CREATE_PRODUCT, pn, sku, color, none, qc, reason⟩ prev
        = none
      ∧ createStateA newPid ⟨.CREATE_PRODUCT, pn, sku, color, none, qc, reason⟩ prev
        = prev :=
  ⟨rfl, rfl⟩

/-- C7 counterexample.  Variant B's restore neither accepts the envelope form
nor rejects it with a user-visible format error: on the successfully parsed
envelope upload it does nothing at all (no message, no state change),
contradicting both halves of the claim. -/
theorem json_restore_counterexample :
    uploadB (some envelopeX) = .silentIgnore
      ∧ uploadBChangesState (some envelopeX) = false
      ∧ uploadB (some envelopeX) ≠ .parseErrorB
      ∧ (∀ xs, uploadB (some envelopeX) ≠ .restoredRaw xs) := by
  refine ⟨rfl, rfl, ?_, ?_⟩
  · intro h
    exact UploadOutcomeB.noConfusion h
  · intro xs h
    exact UploadOutcomeB.noConfusion h

/-- C7 amended.  Variant A's restore behaves as the claim states: a bare
array, or an envelope object whose `products` member is an array, is accepted
and sanitized field-by-field (with the catalog replaced and immediately
written to the primary key on confirmation); any other successfully parsed
non-nullish value is rejected with a user-visible format error (a nullish
value faults into the parse-error message, as does a missing upload); and the
scenario upload yields exactly one product named X with category
Uncategorized, basePrice 0, alertLimit 0, empty subProducts, and the freshly
generated id.  Variant B accepts only bare arrays, applies them without
sanitization, and silently ignores every other parsed value (see the
counterexample). -/
theorem json_restore_amended (freshP : Nat → String) (freshS : Nat → Nat → String)
    (prev : List Product) (st : Store) :
    (∀ xs ps, sanitizeProductsJs freshP freshS 0 xs = .ok ps →
        uploadA freshP freshS true (some (.arr xs)) prev st
          = (.restored, ps, { st with primary := some (stringifyProducts ps) }))
      ∧ (∀ fields xs ps, jlookup fields "products" = .arr xs →
          sanitizeProductsJs freshP freshS 0 xs = .ok ps →
          uploadA freshP freshS true (some (.obj fields)) prev st
            = (.restored, ps, { st with primary := some (stringifyProducts ps) }))
      ∧ (∀ v pv, isArrayJ v = false → jget v "products" = .ok pv →
          (jtruthy pv && isArrayJ pv) = false →
          uploadA freshP freshS true (some v) prev st = (.formatError, prev, st))
      ∧ uploadA freshP freshS true (some .null) prev st = (.parseError, prev, st)
      ∧ uploadA freshP freshS true none prev st = (.parseError, prev, st)
      ∧ uploadA freshP freshS true (some envelopeX) prev st
          = (.restored, [productX (freshP 0)],
            { st with primary := some (stringifyProducts [productX (freshP 0)]) }) := by
  refine ⟨?_, ?_, ?_, rfl, rfl, ?_⟩
  · intro xs ps hsan
    simp only [uploadA, isArrayJ, if_true]
    rw [hsan]
  · intro fields xs ps hmem hsan
    have hget : jget (.obj fields) "products" = .ok (.arr xs) := by
      simp [jget, jprop, hmem]
    simp only [uploadA, isArrayJ, Bool.false_eq_true, if_false, hget]
    simp only [jtruthy, isArrayJ, Bool.and_self, if_true]
    rw [hsan]
  · intro v pv hnarr hget hkeep
    cases v with
    | null => simp [jget] at hget
    | undefV => simp [jget] at hget
    | bool b => simp [uploadA, hnarr, hget, hkeep]
    | num n => simp [uploadA, hnarr, hget, hkeep]
    | str s => simp [uploadA, hnarr, hget, hkeep]
    | arr xs => simp [isArrayJ] at hnarr
    | obj fields => simp [uploadA, hnarr, hget, hkeep]
  · rfl

/-- Witness for C7: the scenario through the bare-array conjunct on the empty
upload, and the envelope conjunct at the concrete envelope. -/
theorem json_restore_amended_witness :
    uploadA (fun i => toString i) (fun i j => toString i ++ toString j) true
        (some (.arr [])) [] ⟨none, none, none⟩
      = (.restored, [], { (⟨none, none, none⟩ : Store) with
          primary := some (stringifyProducts []) }) :=
  (json_restore_amended (fun i => toString i) (fun i j => toString i ++ toString j)
    [] ⟨none, none, none⟩).1 [] [] rfl

theorem escapeCsv_special (s : String)
    (h : (s.data.contains '"' || s.data.contains ',' || s.data.contains '\n') = true) :
    (escapeCsv s).data
      = '"' :: ((s.data.flatMap fun c => if c = '"' then ['"', '"'] else [c]) ++ ['"']) := by
  unfold escapeCsv
  rw [if_pos h]
  simp [String.data_append]

theorem collapseQuotes_doubled (l : List Char) :
    collapseQuotes (l.flatMap fun c => if c = '"' then ['"', '"'] else [c]) = l := by
  induction l with
  | nil => rfl
  | cons c cs ih =>
    by_cases hc : c = '"'
    · subst hc
      simp only [List.flatMap_cons, if_pos rfl, List.cons_append, List.nil_append]
      simp [collapseQuotes, ih]
    · simp only [List.flatMap_cons, if_neg hc, List.singleton_append]
      rcases hrest : cs.flatMap (fun c => if c = '"' then ['"', '"'] else [c])
        with _ | ⟨r1, rs⟩
      · rw [hrest] at ih
        simp only [collapseQuotes] at ih
        subst ih
        simp [collapseQuotes]
      · rw [hrest] at ih
        simp [collapseQuotes, hc, ih]

theorem strMk_data (s : String) : String.mk s.data = s := by
  cases s
  rfl

theorem csvUnescape_escapeCsv (s : String) :
    csvUnescape (escapeCsv s) = s := by
  by_cases h : (s.data.contains '"' || s.data.contains ',' || s.data.contains '\n') = true
  · have hdata := escapeCsv_special s h
    unfold csvUnescape
    rw [hdata]
    simp [List.dropLast_concat, collapseQuotes_doubled, strMk_data]
  · have hq : s.data.contains '"' = false := by
      by_contra hq'
      apply h
      rw [Bool.not_eq_false] at hq'
      rw [hq']
      simp
    have hesc : escapeCsv s = s := by
      unfold escapeCsv
      rw [if_neg h]
    rw [hesc]
    unfold csvUnescape
    rcases hd : s.data with _ | ⟨c, rest⟩
    · rfl
    · have hcq : c ≠ '"' := by
        intro hceq
        subst hceq
        rw [hd] at hq
        simp at hq
      simp [hd, hcq]

/-- C8 counterexample.  Variant A's export performs no escaping: on a catalog
whose product name contains a comma, the exported CSV content contains no
double quote at all, so the comma-carrying field is emitted unquoted,
contradicting the claim for variant A's `handleExport`. -/
theorem csv_escaping_counterexample :
    ("a,b".data.contains ',') = true
      ∧ commaP.name = "a,b"
      ∧ ((exportCsvA [commaP]).data.contains '"') = false := by
  refine ⟨by decide, rfl, by decide⟩

/-- C8 amended.  Variant B's export escapes as the claim states: the CSV body
applies `escapeCsv` to every field of every row, and `escapeCsv` wraps a
value containing a double quote, comma, or newline in double quotes with
every internal double quote doubled, leaves every other value unquoted, and
is losslessly undone by the RFC-4180 field decoder.  Variant A's export
emits all values raw (see the counterexample). -/
theorem csv_escaping_amended (ps : List Product) :
    exportCsvB ps
        = String.intercalate "\n"
            (String.intercalate "," headersB
              :: (csvRowsB ps).map fun row => String.intercalate "," (row.map escapeCsv))
      ∧ (∀ s : String,
          (s.data.contains '"' || s.data.contains ',' || s.data.contains '\n') = true →
          (escapeCsv s).data
            = '"' :: ((s.data.flatMap fun c => if c = '"' then ['"', '"'] else [c]) ++ ['"']))
      ∧ (∀ s : String,
          (s.data.contains '"' || s.data.contains ',' || s.data.contains '\n') = false →
          escapeCsv s = s)
      ∧ (∀ s : String, csvUnescape (escapeCsv s) = s) := by
  refine ⟨rfl, escapeCsv_special, ?_, csvUnescape_escapeCsv⟩
  intro s hs
  unfold escapeCsv
  rw [if_neg (by rw [hs]; simp)]

/-- Witness for C8 at the concrete comma-carrying value: the escaped form is
the quoted, quote-doubled rendering. -/
theorem csv_escaping_amended_witness :
    (escapeCsv "a,b").data
      = '"' :: (("a,b".data.flatMap fun c => if c = '"' then ['"', '"'] else [c]) ++ ['"']) :=
  (csv_escaping_amended []).2.1 "a,b" (by decide)
